import Mathlib

/-!
Shallow embedding of the conversion core of `mkqif.py` (class `CSVFormat`):
the format-descriptor data model, the amount/sign resolution (`credit_debit`),
date parsing with year inference (`str2date`), the row-conversion loop with
statistics (`convert_csv_to_qif`), and the QIF serialization.

Modelling conventions:
* CSV rows are lists of field strings; `row[i]` becomes `List.get?`, with an
  out-of-range access surfacing as the `indexError` outcome (Python's
  uncaught `IndexError`).
* Monetary values are rationals (`Rat`): `locale.atof` is modelled by `atof`
  below, a plain decimal-string parser for the POSIX locale, and the claims
  about sign resolution are stated relative to its result.
* Python regular expressions (`re.match` against a configured pattern) are
  abstracted as boolean predicates on strings; `strptime` with the
  descriptor's `date_format` is abstracted as a function from strings to an
  optional parsed date, with Python's default year 1900 as the "no year
  present" sentinel.
* Fallible code returns `Except MQError`; the three error outcomes that can
  escape the conversion core are the `MQException` raised for an unparsable
  debit amount (carrying the hex-encoded text), the `TypeError` raised by the
  exception handler itself when it tries to hex-encode an already-parsed
  numeric amount, and an uncaught `IndexError` from row indexing.
-/

namespace Mkqif

attribute [local semireducible] Rat.add Rat.mul Rat.sub Rat.inv Rat.ofScientific

/-- Removes every space character, modelling Python `s.replace(' ','')`. -/
def stripSpaces (s : String) : String :=
  ⟨s.data.filter (fun c => c ≠ ' ')⟩

/-- Helper for collapsing runs of spaces; the flag records whether the
previous character written was a space. -/
def collapseSpacesAux : Bool → List Char → List Char
  | _, [] => []
  | prevSpace, c :: cs =>
    if c = ' ' then
      if prevSpace then collapseSpacesAux true cs
      else ' ' :: collapseSpacesAux true cs
    else c :: collapseSpacesAux false cs

/-- Collapses each run of spaces to a single space, modelling the payee
clean-up `re.sub(r' +', ' ', s)`. -/
def collapseSpaces (s : String) : String :=
  ⟨collapseSpacesAux false s.data⟩

/-- Lower-case hexadecimal rendering of a code point, zero-padded to at
least two digits, modelling Python format `02x` applied to `ord(c)`. -/
def hexByte (n : Nat) : String :=
  let ds := Nat.toDigits 16 n
  if ds.length < 2 then ⟨'0' :: ds⟩ else ⟨ds⟩

/-- Colon-separated hex dump of a string's characters, modelling the
`":".join(<hex of ord c> for c in s)` payload of the amount-parse error. -/
def hexJoin (s : String) : String :=
  String.intercalate ":" (s.data.map (fun c => hexByte c.toNat))

/-- Numeric value of a digit string. -/
def digitsVal (cs : List Char) : Nat :=
  cs.foldl (fun acc c => acc * 10 + (c.toNat - 48)) 0

/-- Plain decimal-string parser modelling `locale.atof` in the POSIX locale:
an optional sign followed by digits with an optional single decimal point,
at least one digit in total.  Returns `none` where `locale.atof` raises
`ValueError`. -/
def atof (s : String) : Option Rat :=
  let signedBody : Bool × List Char :=
    match s.data with
    | '-' :: t => (true, t)
    | '+' :: t => (false, t)
    | cs => (false, cs)
  let ip := signedBody.2.takeWhile Char.isDigit
  let rest := signedBody.2.dropWhile Char.isDigit
  let mag : Option Rat :=
    match rest with
    | [] => if ip.isEmpty then none else some (Rat.divInt (digitsVal ip) 1)
    | '.' :: fp =>
      if fp.all Char.isDigit && !(ip.isEmpty && fp.isEmpty) then
        some (Rat.divInt (digitsVal ip * 10 ^ fp.length + digitsVal fp)
                (10 ^ fp.length))
      else none
    | _ => none
  match mag with
  | none => none
  | some m => some (if signedBody.1 then -m else m)

/-- Debit-field parsing as performed at the top of `credit_debit`:
strip embedded spaces, treat an empty result as amount 0, otherwise parse
with `atof`. -/
def parseAmount (s : String) : Option Rat :=
  let t := stripSpaces s
  if t = "" then some 0 else atof t

/-- Calendar date, modelling Python `datetime.date`. -/
structure Date where
  year : Int
  month : Nat
  day : Nat
deriving DecidableEq, Repr

/-- Strict lexicographic comparison of dates, modelling `<` on
`datetime.date`. -/
def Date.ltb (a b : Date) : Bool :=
  if a.year < b.year then true
  else if b.year < a.year then false
  else if a.month < b.month then true
  else if b.month < a.month then false
  else decide (a.day < b.day)

/-- Non-strict lexicographic comparison of dates. -/
def Date.leb (a b : Date) : Bool :=
  !(Date.ltb b a)

/-- Gregorian leap-year test, as used by `datetime.date`. -/
def isLeapYear (y : Int) : Bool :=
  (y % 4 == 0 && y % 100 != 0) || y % 400 == 0

/-- Number of days in a month. -/
def daysInMonth (y : Int) (m : Nat) : Nat :=
  if m = 2 then (if isLeapYear y then 29 else 28)
  else if m = 4 ∨ m = 6 ∨ m = 9 ∨ m = 11 then 30
  else 31

/-- Validity test of a (year, month, day) triple, modelling the check
`datetime.date(year, month, day)` performs (it raises `ValueError` on an
out-of-range component; `MINYEAR = 1`, `MAXYEAR = 9999`). -/
def dateValid (y : Int) (m d : Nat) : Bool :=
  1 ≤ y && y ≤ 9999 && 1 ≤ m && m ≤ 12 && 1 ≤ d &&
    decide (d ≤ daysInMonth y m)

/-- Errors escaping the conversion core:
* `amountError` models the `MQException` raised when the debit field fails to
  parse, carrying the hex-encoded offending text;
* `typeError` models the `TypeError` raised by the exception handler itself
  when the second `locale.atof` call (on the credit field) fails and the
  handler iterates over the already-parsed numeric `amount`;
* `indexError` models an uncaught `IndexError` from out-of-range row access. -/
inductive MQError where
  | amountError (hex : String)
  | typeError
  | indexError
deriving DecidableEq, Repr

/-- Decidable equality for `Except` results, so that theorems about the
fallible operations can be evaluated on concrete inputs. -/
instance (ε α : Type) [DecidableEq ε] [DecidableEq α] :
    DecidableEq (Except ε α)
  | .ok a, .ok b =>
    if h : a = b then isTrue (by rw [h])
    else isFalse (fun hh => h (Except.ok.inj hh))
  | .ok _, .error _ => isFalse (fun hh => Except.noConfusion hh)
  | .error _, .ok _ => isFalse (fun hh => Except.noConfusion hh)
  | .error e, .error f =>
    if h : e = f then isTrue (by rw [h])
    else isFalse (fun hh => h (Except.error.inj hh))

/-- Format descriptor for one institution, modelling the conversion-relevant
fields of class `CSVFormat`.  `strptime` abstracts
`datetime.datetime.strptime(s, self.date_format)` (year 1900 when the format
carries no year field); `credit_regexp` and `ignore_regexp` abstract
`re.match` against the configured patterns, `none` meaning the pattern is not
configured.  The fields `name`, `nheaders` and `file_regexp` only drive file
I/O and are omitted. -/
structure CSVFormat where
  type : String
  date_col : Nat
  payee_col : Nat
  debit_col : Nat
  credit_col : Nat
  ncols : Nat
  strptime : String → Option Date
  credit_regexp : Option (String → Bool)
  ignore_regexp : Option (String → Bool)
  ignore_col : Nat
  debit_is_negative : Bool

/-- Date parsing with year inference, modelling `CSVFormat.str2date`: parse
with the descriptor's format; when the parsed year is the sentinel 1900,
infer the year from the reference date `now` (same year when the parsed
month is at most the reference month, previous year otherwise); any failure,
including an invalid resolved date, yields `None`. -/
def str2date (fmt : CSVFormat) (dateStr : String) (now : Date) : Option Date :=
  match fmt.strptime dateStr with
  | none => none
  | some d =>
    let year : Int :=
      if d.year = 1900 then
        (if d.month ≤ now.month then now.year else now.year - 1)
      else d.year
    if dateValid year d.month d.day then some ⟨year, d.month, d.day⟩
    else none

/-- Sign resolution of `credit_debit` after the debit amount has been
parsed: the credit-pattern rule, the shared-column rule, the credit-value
rule and the final debit-based fallback, in the source's order. -/
def creditDebitResolve (fmt : CSVFormat) (credit : String) (amount : Rat) :
    Except MQError Rat :=
  match fmt.credit_regexp with
  | some p =>
    if p credit then .ok (if 0 ≤ amount then amount else -amount)
    else .ok (if amount < 0 then amount else -amount)
  | none =>
    if fmt.debit_col = fmt.credit_col then
      .ok (if fmt.debit_is_negative then amount else -amount)
    else if credit ≠ "" ∧ fmt.credit_col ≠ fmt.payee_col then
      match atof (stripSpaces credit) with
      | none => .error .typeError
      | some fc =>
        let fca := if fc < 0 then -fc else fc
        if fca ≠ 0 then .ok fca
        else .ok (if 0 < amount then -amount else amount)
    else .ok (if 0 < amount then -amount else amount)

/-- Amount/sign resolution, modelling `CSVFormat.credit_debit`.  Reads the
debit and credit fields (an out-of-range column is Python's uncaught
`IndexError`), parses the debit amount (failure raises the `MQException`
carrying the hex-encoded stripped text), then resolves the sign. -/
def credit_debit (fmt : CSVFormat) (row : List String) : Except MQError Rat :=
  match row.get? fmt.debit_col, row.get? fmt.credit_col with
  | some ds, some cs =>
    match parseAmount ds with
    | none => .error (.amountError (hexJoin (stripSpaces ds)))
    | some amount => creditDebitResolve fmt cs amount
  | _, _ => .error .indexError

/-- Two-digit zero padding, as in the `%d`/`%m` date fields and the cent
digits of the amount. -/
def pad2 (n : Nat) : String :=
  if n < 10 then "0" ++ toString n else toString n

/-- Date rendering modelling `row_date.strftime("%d-%m-%Y")`. -/
def formatDate (d : Date) : String :=
  pad2 d.day ++ "-" ++ pad2 d.month ++ "-" ++ toString d.year

/-- Two-decimal amount rendering modelling the `%.02f` conversion (rounding
to the nearest cent). -/
def formatAmount (q : Rat) : String :=
  let cents : Int := (q * 100 + Rat.divInt 1 2).floor
  let n := cents.natAbs
  (if cents < 0 then "-" else "") ++ toString (n / 100) ++ "." ++ pad2 (n % 100)

/-- One QIF block, modelling the format string
`"!Type:%s\r\nD%s\r\nT%.02f\r\nP%s\r\n^\r\n"` of `convert_csv_to_qif`. -/
def qifBlock (qtype : String) (d : Date) (amount : Rat) (payee : String) :
    String :=
  "!Type:" ++ qtype ++ "\r\nD" ++ formatDate d ++ "\r\nT" ++
    formatAmount amount ++ "\r\nP" ++ payee ++ "\r\n^\r\n"

/-- Mutable loop state of `convert_csv_to_qif`. -/
structure ConvState where
  balance : Rat
  processed : Nat
  valid : Nat
  empty : Nat
  ncols_mismatch : Nat
  qif_text : String
deriving DecidableEq, Repr

/-- Initial loop state of `convert_csv_to_qif`. -/
def initState : ConvState :=
  ⟨0, 0, 0, 0, 0, ""⟩

/-- Statistics record, modelling the `Stats` named tuple. -/
structure Stats where
  valid : Nat
  processed : Nat
  skipped : Nat
  balance : Rat
  empty : Nat
  ncols_mismatch : Nat
deriving DecidableEq, Repr

/-- The ignore filter at the top of the row loop: with a configured pattern,
the designated field is read (out of range is Python's uncaught
`IndexError`) and tested; `ok true` means the row is dropped silently. -/
def ignoreCheck (fmt : CSVFormat) (row : List String) : Except MQError Bool :=
  match fmt.ignore_regexp with
  | none => .ok false
  | some p =>
    match row.get? fmt.ignore_col with
    | none => .error .indexError
    | some f => .ok (p f)

/-- Body of the row loop of `convert_csv_to_qif` for a non-ignored row:
shape checks, date parse, validity count, date-window filter, payee
clean-up, amount resolution, and accumulation of balance and QIF text. -/
def rowBody (fmt : CSVFormat) (cutoff today : Date) (st : ConvState)
    (row : List String) : Except MQError ConvState :=
  if row.length = 0 then .ok { st with empty := st.empty + 1 }
  else if row.length ≠ fmt.ncols then
    .ok { st with ncols_mismatch := st.ncols_mismatch + 1 }
  else
    match row.get? fmt.date_col with
    | none => .error .indexError
    | some dstr =>
      match str2date fmt dstr today with
      | none => .ok { st with empty := st.empty + 1 }
      | some d =>
        if Date.ltb d cutoff || Date.ltb today d then
          .ok { st with valid := st.valid + 1 }
        else
          match row.get? fmt.payee_col with
          | none => .error .indexError
          | some praw =>
            match credit_debit fmt row with
            | .error e => .error e
            | .ok amount =>
              .ok { st with valid := st.valid + 1,
                            processed := st.processed + 1,
                            balance := st.balance + amount,
                            qif_text := st.qif_text ++
                              qifBlock fmt.type d amount
                                (collapseSpaces praw) }

/-- One iteration of the row loop: ignore filter, then the row body. -/
def convertStep (fmt : CSVFormat) (cutoff today : Date) (st : ConvState)
    (row : List String) : Except MQError ConvState :=
  match ignoreCheck fmt row with
  | .error e => .error e
  | .ok true => .ok st
  | .ok false => rowBody fmt cutoff today st row

/-- The row loop of `convert_csv_to_qif`: rows in order, stopping at the
first uncaught error. -/
def convertRows (fmt : CSVFormat) (cutoff today : Date) :
    List (List String) → ConvState → Except MQError ConvState
  | [], st => .ok st
  | row :: rows, st =>
    match convertStep fmt cutoff today st row with
    | .error e => .error e
    | .ok st' => convertRows fmt cutoff today rows st'

/-- Conversion entry point, modelling `CSVFormat.convert_csv_to_qif` on
already-tokenized rows: runs the row loop from the zeroed state and, on
success, packages the QIF text together with the statistics
`Stats(valid, processed, valid - processed, balance, empty, ncols_mismatch)`.
An uncaught error aborts the run: no text and no statistics are produced. -/
def convert_csv_to_qif (fmt : CSVFormat) (rows : List (List String))
    (cutoff today : Date) : Except MQError (String × Stats) :=
  match convertRows fmt cutoff today rows initState with
  | .error e => .error e
  | .ok st =>
    .ok (st.qif_text,
         ⟨st.valid, st.processed, st.valid - st.processed, st.balance,
          st.empty, st.ncols_mismatch⟩)

/-- Whether the ignore filter drops the row (`false` as well when the
designated field is out of range, a case that aborts a run and therefore
never occurs in a completed one). -/
def ignoredRow (fmt : CSVFormat) (row : List String) : Bool :=
  match fmt.ignore_regexp with
  | none => false
  | some p =>
    match row.get? fmt.ignore_col with
    | none => false
    | some f => p f

/-- Number of rows the ignore filter does not drop. -/
def countNonIgnored (fmt : CSVFormat) (rows : List (List String)) : Nat :=
  rows.countP (fun r => !ignoredRow fmt r)

/-- Output record of one accepted row: account kind, date, signed amount,
whitespace-collapsed payee (spec §3, OutputRecord). -/
structure QifRecord where
  qtype : String
  date : Date
  amount : Rat
  payee : String
deriving DecidableEq, Repr

/-- Rendering of one output record, written from the spec's block format
`!Type:<Bank|CCard> CRLF D<dd-mm-yyyy> CRLF T<amount> CRLF P<payee> CRLF ^
CRLF` (spec §4.4/§6). -/
def renderRecord (r : QifRecord) : String :=
  "!Type:" ++ r.qtype ++ "\r\nD" ++ formatDate r.date ++ "\r\nT" ++
    formatAmount r.amount ++ "\r\nP" ++ r.payee ++ "\r\n^\r\n"

/-- Concatenation of a list of strings in order; the empty list yields the
empty string. -/
def concatAll : List String → String
  | [] => ""
  | s :: rest => s ++ concatAll rest

/-- The output record a single row contributes, if any: `some` exactly when
the row passes the ignore filter, the shape checks, the date parse and the
date window, and its amount resolves without error. -/
def rowRecord (fmt : CSVFormat) (cutoff today : Date) (row : List String) :
    Option QifRecord :=
  match ignoreCheck fmt row with
  | .error _ => none
  | .ok true => none
  | .ok false =>
    if row.length = 0 then none
    else if row.length ≠ fmt.ncols then none
    else
      match row.get? fmt.date_col with
      | none => none
      | some dstr =>
        match str2date fmt dstr today with
        | none => none
        | some d =>
          if Date.ltb d cutoff || Date.ltb today d then none
          else
            match row.get? fmt.payee_col with
            | none => none
            | some praw =>
              match credit_debit fmt row with
              | .error _ => none
              | .ok amount =>
                some ⟨fmt.type, d, amount, collapseSpaces praw⟩

/-- The accepted output records of a row sequence, in input order. -/
def acceptedRecords (fmt : CSVFormat) (cutoff today : Date)
    (rows : List (List String)) : List QifRecord :=
  rows.filterMap (rowRecord fmt cutoff today)

/-! Concrete descriptor instances used to instantiate the theorems below.
`dFmt` mirrors the constructor defaults of `CSVFormat.__init__`. -/

/-- A descriptor with the constructor's default column layout
(`date_col = 0`, `payee_col = 1`, `debit_col = 2`, `credit_col = 3`,
`ncols = 4`, `debit_is_negative = True`, no credit or ignore pattern);
its date parser recognizes the dates appearing in the examples. -/
def dFmt : CSVFormat where
  type := "CCard"
  date_col := 0
  payee_col := 1
  debit_col := 2
  credit_col := 3
  ncols := 4
  strptime := fun s =>
    if s = "01-01-2024" then some ⟨2024, 1, 1⟩
    else if s = "10-01-2024" then some ⟨2024, 1, 10⟩
    else if s = "20-01-2024" then some ⟨2024, 1, 20⟩
    else if s = "09-01-2024" then some ⟨2024, 1, 9⟩
    else if s = "21-01-2024" then some ⟨2024, 1, 21⟩
    else none
  credit_regexp := none
  ignore_regexp := none
  ignore_col := 1
  debit_is_negative := true

/-- `dFmt` with a credit-recognition pattern matching the text `CR`. -/
def crFmt : CSVFormat :=
  { dFmt with credit_regexp := some (fun s => s = "CR") }

/-- `dFmt` with an ignore pattern configured (ignore column 1). -/
def iFmt : CSVFormat :=
  { dFmt with ignore_regexp := some (fun s => s = "IGNORE") }

/-! Helper lemmas about the row loop. -/

/-- A successful field access implies the row is non-empty. -/
theorem length_ne_zero_of_get (row : List String) (n : Nat) (x : String)
    (h : row.get? n = some x) : row.length ≠ 0 := by
  intro h0
  rw [List.length_eq_zero.mp h0] at h
  simp at h

/-- The ignore filter's boolean outcome agrees with `ignoredRow` whenever it
does not raise. -/
theorem ignoreCheck_eq_ok (fmt : CSVFormat) (row : List String) (b : Bool)
    (h : ignoreCheck fmt row = .ok b) : ignoredRow fmt row = b := by
  unfold ignoreCheck at h
  unfold ignoredRow
  cases hr : fmt.ignore_regexp with
  | none => rw [hr] at h; exact (Except.ok.inj h)
  | some p =>
    rw [hr] at h
    cases hg : row.get? fmt.ignore_col with
    | none => rw [hg] at h; exact Except.noConfusion h
    | some f => rw [hg] at h; exact (Except.ok.inj h)

/-- The inclusive window test of the claims agrees with the source's
exclusion test `row_date < cutoff_date or row_date > today`. -/
theorem leb_window (d cutoff today : Date) :
    (Date.leb cutoff d && Date.leb d today) =
      !(Date.ltb d cutoff || Date.ltb today d) := by
  cases h1 : Date.ltb d cutoff <;> cases h2 : Date.ltb today d <;>
    simp [Date.leb, h1, h2]

/-! Claim theorems. -/

/-- Claim C1: with a configured credit-recognition pattern, `credit_debit`
resolves the absolute value of the parsed debit amount when the
credit-indicator field matches the pattern, and the negated absolute value
when it does not; hence the sign flips exactly when (match and raw amount
negative) or (no match and raw amount positive). -/
theorem credit_debit_credit_regexp_sign (fmt : CSVFormat) (row : List String)
    (p : String → Bool) (ds cs : String) (a : Rat)
    (hp : fmt.credit_regexp = some p)
    (hdeb : row.get? fmt.debit_col = some ds)
    (hcred : row.get? fmt.credit_col = some cs)
    (ha : parseAmount ds = some a) :
    credit_debit fmt row = .ok (if p cs then |a| else -|a|) := by
  simp only [credit_debit, hdeb, hcred, ha, creditDebitResolve, hp]
  by_cases hm : p cs
  · rw [if_pos hm, if_pos hm]
    rcases le_or_lt 0 a with h0 | h0
    · rw [if_pos h0, abs_of_nonneg h0]
    · rw [if_neg (not_le.mpr h0), abs_of_neg h0]
  · rw [if_neg hm, if_neg hm]
    rcases lt_or_le a 0 with h0 | h0
    · rw [if_pos h0, abs_of_neg h0, neg_neg]
    · rw [if_neg (not_lt.mpr h0), abs_of_nonneg h0]

/-- Witness for C1: all four (match/no-match) x (positive/negative raw
amount) cases at concrete inputs; `CR` matches the pattern, `DR` does not. -/
theorem credit_debit_credit_regexp_sign_witness :
    credit_debit crFmt ["01-01-2024", "Shop", "3.50", "CR"] = .ok (7 / 2) ∧
    credit_debit crFmt ["01-01-2024", "Shop", "-3.50", "CR"] = .ok (7 / 2) ∧
    credit_debit crFmt ["01-01-2024", "Shop", "3.50", "DR"] = .ok (-(7 / 2)) ∧
    credit_debit crFmt ["01-01-2024", "Shop", "-3.50", "DR"] = .ok (-(7 / 2)) := by
  refine ⟨?_, ?_, ?_, ?_⟩
  · exact (credit_debit_credit_regexp_sign crFmt
      ["01-01-2024", "Shop", "3.50", "CR"] _ "3.50" "CR" (7 / 2)
      rfl (by decide) (by decide) (by decide)).trans (by decide)
  · exact (credit_debit_credit_regexp_sign crFmt
      ["01-01-2024", "Shop", "-3.50", "CR"] _ "-3.50" "CR" (-(7 / 2))
      rfl (by decide) (by decide) (by decide)).trans (by decide)
  · exact (credit_debit_credit_regexp_sign crFmt
      ["01-01-2024", "Shop", "3.50", "DR"] _ "3.50" "DR" (7 / 2)
      rfl (by decide) (by decide) (by decide)).trans (by decide)
  · exact (credit_debit_credit_regexp_sign crFmt
      ["01-01-2024", "Shop", "-3.50", "DR"] _ "-3.50" "DR" (-(7 / 2))
      rfl (by decide) (by decide) (by decide)).trans (by decide)

/-- Claim C3: when the parsed date's year is the "no year present" sentinel
1900, `str2date` resolves the year to the reference year if the parsed month
is at most the reference month, and to the reference year minus one
otherwise (provided the resolved date is a valid calendar date). -/
theorem str2date_year_inference (fmt : CSVFormat) (s : String) (now : Date)
    (m dy : Nat)
    (hp : fmt.strptime s = some ⟨1900, m, dy⟩)
    (hv : dateValid (if m ≤ now.month then now.year else now.year - 1) m dy
            = true) :
    str2date fmt s now =
      some ⟨if m ≤ now.month then now.year else now.year - 1, m, dy⟩ := by
  simp only [str2date, hp]
  simp [hv]

/-- Witness for C3, the spec's example: reference date 2024-03-15 and a
year-less parse of month 4, day 10 resolve to 2023-04-10 (month 4 exceeds
reference month 3, so the reference year is decremented). -/
theorem str2date_year_inference_witness :
    str2date
      { dFmt with strptime := fun s =>
          if s = "10/04" then some ⟨1900, 4, 10⟩ else none }
      "10/04" ⟨2024, 3, 15⟩ = some ⟨2023, 4, 10⟩ := by
  exact (str2date_year_inference _ "10/04" ⟨2024, 3, 15⟩ 4 10 (by decide)
    (by decide)).trans (by decide)

/-- Claim C5: without a credit pattern and with distinct debit and credit
columns, a non-empty credit field (not the payee column) parsing to exactly
zero does not trigger the credit branch: the result is the debit-based
fallback. -/
theorem credit_debit_zero_credit (fmt : CSVFormat) (row : List String)
    (ds cs : String) (a : Rat)
    (hreg : fmt.credit_regexp = none)
    (hcols : fmt.debit_col ≠ fmt.credit_col)
    (hdeb : row.get? fmt.debit_col = some ds)
    (hcred : row.get? fmt.credit_col = some cs)
    (ha : parseAmount ds = some a)
    (hcs : cs ≠ "")
    (hpayee : fmt.credit_col ≠ fmt.payee_col)
    (hz : atof (stripSpaces cs) = some 0) :
    credit_debit fmt row = .ok (if 0 < a then -a else a) := by
  simp only [credit_debit, hdeb, hcred, ha, creditDebitResolve, hreg]
  rw [if_neg hcols, if_pos ⟨hcs, hpayee⟩, hz]
  norm_num

/-- Witness for C5: credit field `0` with debit `3.50` falls through to the
fallback, yielding the negated debit. -/
theorem credit_debit_zero_credit_witness :
    credit_debit dFmt ["01-01-2024", "Shop", "3.50", "0"] = .ok (-(7 / 2)) := by
  exact (credit_debit_zero_credit dFmt ["01-01-2024", "Shop", "3.50", "0"]
    "3.50" "0" (7 / 2) rfl (by decide) (by decide) (by decide) (by decide)
    (by decide) (by decide) (by decide)).trans (by decide)

/-- Counterexample for C6 as stated: a row with a blank debit field but a
nonzero parseable credit field resolves to the credit value 5, not 0. -/
theorem credit_debit_blank_debit_cex :
    credit_debit dFmt ["01-01-2024", "Shop", "", "5"] = .ok 5 ∧
    credit_debit dFmt ["01-01-2024", "Shop", "", "5"] ≠ .ok 0 := by
  constructor
  · decide
  · decide

/-- Claim C6 (amended): a present-but-blank debit field is treated as amount
0 and raises no error; the resolved amount is then 0 whenever the
credit-value rule does not fire, i.e. when a credit pattern is configured,
or debit and credit share a column, or the credit field is empty, or the
credit column is the payee column.  (As stated the claim fails: a nonzero
parseable credit field is returned instead of 0, and a debit field absent
from the row raises an uncaught index error.) -/
theorem credit_debit_blank_debit (fmt : CSVFormat) (row : List String)
    (ds cs : String)
    (hdeb : row.get? fmt.debit_col = some ds)
    (hcred : row.get? fmt.credit_col = some cs)
    (hblank : stripSpaces ds = "")
    (hside : fmt.credit_regexp.isSome = true ∨ fmt.debit_col = fmt.credit_col
      ∨ cs = "" ∨ fmt.credit_col = fmt.payee_col) :
    credit_debit fmt row = .ok 0 := by
  have hpa : parseAmount ds = some 0 := by
    simp [parseAmount, hblank]
  simp only [credit_debit, hdeb, hcred, hpa, creditDebitResolve]
  cases hcr : fmt.credit_regexp with
  | some p =>
    by_cases hm : p cs <;> simp [hm]
  | none =>
    rcases hside with hs | hs | hs | hs
    · rw [hcr] at hs; simp at hs
    · simp [hs]
    · simp [hs]
    · simp [hs]

/-- Witness for C6 (amended): blank debit and blank credit resolve to 0. -/
theorem credit_debit_blank_debit_witness :
    credit_debit dFmt ["01-01-2024", "Shop", "", ""] = .ok 0 := by
  exact credit_debit_blank_debit dFmt ["01-01-2024", "Shop", "", ""] "" ""
    (by decide) (by decide) (by decide) (Or.inr (Or.inr (Or.inl rfl)))

/-- Claim C10: when the debit amount parses but the credit field is
non-empty, distinct from the payee column, and unparseable (with no credit
pattern and distinct debit/credit columns), the exception handler of
`credit_debit` itself fails with a `TypeError` while hex-encoding the
already-parsed numeric amount, so the surfaced error is not the documented
amount-parse error. -/
theorem credit_debit_handler_type_error (fmt : CSVFormat) (row : List String)
    (ds cs : String) (a : Rat)
    (hdeb : row.get? fmt.debit_col = some ds)
    (hcred : row.get? fmt.credit_col = some cs)
    (ha : parseAmount ds = some a)
    (hreg : fmt.credit_regexp = none)
    (hcols : fmt.debit_col ≠ fmt.credit_col)
    (hcs : cs ≠ "")
    (hpayee : fmt.credit_col ≠ fmt.payee_col)
    (hcatof : atof (stripSpaces cs) = none) :
    credit_debit fmt row = .error .typeError ∧
      ∀ hex, credit_debit fmt row ≠ .error (.amountError hex) := by
  have h1 : credit_debit fmt row = .error .typeError := by
    simp only [credit_debit, hdeb, hcred, ha, creditDebitResolve, hreg]
    rw [if_neg hcols, if_pos ⟨hcs, hpayee⟩, hcatof]
  exact ⟨h1, fun hex => by simp [h1]⟩

/-- Witness for C10: debit `3.50` with unparseable credit `abc` surfaces the
`TypeError`, not the amount-parse error. -/
theorem credit_debit_handler_type_error_witness :
    credit_debit dFmt ["01-01-2024", "Shop", "3.50", "abc"]
      = .error .typeError ∧
    credit_debit dFmt ["01-01-2024", "Shop", "3.50", "abc"]
      ≠ .error (.amountError "61:62:63") := by
  have h := credit_debit_handler_type_error dFmt
    ["01-01-2024", "Shop", "3.50", "abc"] "3.50" "abc" (7 / 2)
    (by decide) (by decide) (by decide) rfl (by decide) (by decide)
    (by decide) (by decide)
  exact ⟨h.1, h.2 "61:62:63"⟩

/-- Claim C4: for a non-ignored row of the expected width whose date parses,
the row is processed (counted, added to the balance, and emitted as a QIF
block) exactly when its date lies in the inclusive window
`[cutoff, today]`; otherwise only the valid counter is incremented. -/
theorem convertStep_date_window (fmt : CSVFormat) (row : List String)
    (cutoff today : Date) (st : ConvState) (dstr praw : String) (d : Date)
    (a : Rat)
    (hig : ignoreCheck fmt row = .ok false)
    (hlen : row.length = fmt.ncols)
    (hdc : row.get? fmt.date_col = some dstr)
    (hdate : str2date fmt dstr today = some d)
    (hpay : row.get? fmt.payee_col = some praw)
    (hcd : credit_debit fmt row = .ok a) :
    convertStep fmt cutoff today st row =
      (if Date.leb cutoff d && Date.leb d today then
        Except.ok { st with valid := st.valid + 1,
                            processed := st.processed + 1,
                            balance := st.balance + a,
                            qif_text := st.qif_text ++
                              qifBlock fmt.type d a (collapseSpaces praw) }
      else Except.ok { st with valid := st.valid + 1 }) := by
  have hne : row.length ≠ 0 := length_ne_zero_of_get row fmt.date_col dstr hdc
  have hnn : ¬row.length ≠ fmt.ncols := by simp [hlen]
  simp only [convertStep, hig, rowBody, if_neg hne, if_neg hnn, hdc, hdate,
    hpay, hcd, leb_window]
  cases hb : (Date.ltb d cutoff || Date.ltb today d) <;> simp [hb]

/-- Witness for C4, at window `[2024-01-10, 2024-01-20]`: rows dated exactly
at the cutoff and exactly at the effective date are processed; rows one day
before the cutoff and one day after the effective date are only counted
valid. -/
theorem convertStep_date_window_witness :
    convertStep dFmt ⟨2024, 1, 10⟩ ⟨2024, 1, 20⟩ initState
        ["10-01-2024", "Shop", "1.00", ""] =
      .ok ⟨-1, 1, 1, 0, 0,
        "!Type:CCard\r\nD10-01-2024\r\nT-1.00\r\nPShop\r\n^\r\n"⟩ ∧
    convertStep dFmt ⟨2024, 1, 10⟩ ⟨2024, 1, 20⟩ initState
        ["20-01-2024", "Shop", "1.00", ""] =
      .ok ⟨-1, 1, 1, 0, 0,
        "!Type:CCard\r\nD20-01-2024\r\nT-1.00\r\nPShop\r\n^\r\n"⟩ ∧
    convertStep dFmt ⟨2024, 1, 10⟩ ⟨2024, 1, 20⟩ initState
        ["09-01-2024", "Shop", "1.00", ""] = .ok ⟨0, 0, 1, 0, 0, ""⟩ ∧
    convertStep dFmt ⟨2024, 1, 10⟩ ⟨2024, 1, 20⟩ initState
        ["21-01-2024", "Shop", "1.00", ""] = .ok ⟨0, 0, 1, 0, 0, ""⟩ := by
  refine ⟨?_, ?_, ?_, ?_⟩
  · exact (convertStep_date_window dFmt ["10-01-2024", "Shop", "1.00", ""]
      ⟨2024, 1, 10⟩ ⟨2024, 1, 20⟩ initState "10-01-2024" "Shop"
      ⟨2024, 1, 10⟩ (-1) (by decide) (by decide) (by decide) (by decide)
      (by decide) (by decide)).trans (by decide)
  · exact (convertStep_date_window dFmt ["20-01-2024", "Shop", "1.00", ""]
      ⟨2024, 1, 10⟩ ⟨2024, 1, 20⟩ initState "20-01-2024" "Shop"
      ⟨2024, 1, 20⟩ (-1) (by decide) (by decide) (by decide) (by decide)
      (by decide) (by decide)).trans (by decide)
  · exact (convertStep_date_window dFmt ["09-01-2024", "Shop", "1.00", ""]
      ⟨2024, 1, 10⟩ ⟨2024, 1, 20⟩ initState "09-01-2024" "Shop"
      ⟨2024, 1, 9⟩ (-1) (by decide) (by decide) (by decide) (by decide)
      (by decide) (by decide)).trans (by decide)
  · exact (convertStep_date_window dFmt ["21-01-2024", "Shop", "1.00", ""]
      ⟨2024, 1, 10⟩ ⟨2024, 1, 20⟩ initState "21-01-2024" "Shop"
      ⟨2024, 1, 21⟩ (-1) (by decide) (by decide) (by decide) (by decide)
      (by decide) (by decide)).trans (by decide)

/-- Case analysis of one successful loop iteration: an ignored row leaves
the state unchanged; a tolerated anomaly or an out-of-window valid row
increments exactly one of the three row counters; an accepted row
increments valid and processed and appends its rendered record. -/
theorem convertStep_ok_cases (fmt : CSVFormat) (cutoff today : Date)
    (st st' : ConvState) (row : List String)
    (h : convertStep fmt cutoff today st row = .ok st') :
    (ignoredRow fmt row = true ∧ rowRecord fmt cutoff today row = none ∧
      st' = st) ∨
    (ignoredRow fmt row = false ∧ rowRecord fmt cutoff today row = none ∧
      (st' = { st with empty := st.empty + 1 } ∨
       st' = { st with ncols_mismatch := st.ncols_mismatch + 1 } ∨
       st' = { st with valid := st.valid + 1 })) ∨
    (ignoredRow fmt row = false ∧
      ∃ rec, rowRecord fmt cutoff today row = some rec ∧
        st' = { st with valid := st.valid + 1,
                        processed := st.processed + 1,
                        balance := st.balance + rec.amount,
                        qif_text := st.qif_text ++ renderRecord rec }) := by
  cases hig : ignoreCheck fmt row with
  | error e =>
    have hv : convertStep fmt cutoff today st row = .error e := by
      simp only [convertStep, hig]
    exact Except.noConfusion (hv.symm.trans h)
  | ok b =>
    have hib := ignoreCheck_eq_ok fmt row b hig
    cases b with
    | true =>
      have hv : convertStep fmt cutoff today st row = .ok st := by
        simp only [convertStep, hig]
      left
      exact ⟨hib, by simp only [rowRecord, hig],
        (Except.ok.inj (hv.symm.trans h)).symm⟩
    | false =>
      by_cases h0 : row.length = 0
      · have hv : convertStep fmt cutoff today st row =
            .ok { st with empty := st.empty + 1 } := by
          simp only [convertStep, hig, rowBody, if_pos h0]
        right; left
        exact ⟨hib, by simp only [rowRecord, hig, if_pos h0],
          Or.inl (Except.ok.inj (hv.symm.trans h)).symm⟩
      · by_cases hn : row.length ≠ fmt.ncols
        · have hv : convertStep fmt cutoff today st row =
              .ok { st with ncols_mismatch := st.ncols_mismatch + 1 } := by
            simp only [convertStep, hig, rowBody, if_neg h0, if_pos hn]
          right; left
          exact ⟨hib, by simp only [rowRecord, hig, if_neg h0, if_pos hn],
            Or.inr (Or.inl (Except.ok.inj (hv.symm.trans h)).symm)⟩
        · cases hdc : row.get? fmt.date_col with
          | none =>
            have hv : convertStep fmt cutoff today st row =
                .error .indexError := by
              simp only [convertStep, hig, rowBody, if_neg h0, if_neg hn, hdc]
            exact Except.noConfusion (hv.symm.trans h)
          | some dstr =>
            cases hdate : str2date fmt dstr today with
            | none =>
              have hv : convertStep fmt cutoff today st row =
                  .ok { st with empty := st.empty + 1 } := by
                simp only [convertStep, hig, rowBody, if_neg h0, if_neg hn,
                  hdc, hdate]
              right; left
              exact ⟨hib, by simp only [rowRecord, hig, if_neg h0, if_neg hn, hdc,
                  hdate],
                Or.inl (Except.ok.inj (hv.symm.trans h)).symm⟩
            | some d =>
              by_cases hw : (Date.ltb d cutoff || Date.ltb today d) = true
              · have hv : convertStep fmt cutoff today st row =
                    .ok { st with valid := st.valid + 1 } := by
                  simp only [convertStep, hig, rowBody, if_neg h0, if_neg hn,
                    hdc, hdate, if_pos hw]
                right; left
                exact ⟨hib, by simp only [rowRecord, hig, if_neg h0, if_neg hn, hdc,
                    hdate, if_pos hw],
                  Or.inr (Or.inr (Except.ok.inj (hv.symm.trans h)).symm)⟩
              · cases hpay : row.get? fmt.payee_col with
                | none =>
                  have hv : convertStep fmt cutoff today st row =
                      .error .indexError := by
                    simp only [convertStep, hig, rowBody, if_neg h0,
                      if_neg hn, hdc, hdate, if_neg hw, hpay]
                  exact Except.noConfusion (hv.symm.trans h)
                | some praw =>
                  cases hcd : credit_debit fmt row with
                  | error e =>
                    have hv : convertStep fmt cutoff today st row =
                        .error e := by
                      simp only [convertStep, hig, rowBody, if_neg h0,
                        if_neg hn, hdc, hdate, if_neg hw, hpay, hcd]
                    exact Except.noConfusion (hv.symm.trans h)
                  | ok amount =>
                    have hv : convertStep fmt cutoff today st row =
                        .ok { st with
                              valid := st.valid + 1,
                              processed := st.processed + 1,
                              balance := st.balance + amount,
                              qif_text := st.qif_text ++
                                qifBlock fmt.type d amount
                                  (collapseSpaces praw) } := by
                      simp only [convertStep, hig, rowBody, if_neg h0,
                        if_neg hn, hdc, hdate, if_neg hw, hpay, hcd]
                    right; right
                    refine ⟨hib, ⟨fmt.type, d, amount, collapseSpaces praw⟩,
                      ?_, ?_⟩
                    · simp only [rowRecord, hig, if_neg h0, if_neg hn, hdc, hdate,
                        if_neg hw, hpay, hcd]
                    · exact (Except.ok.inj (hv.symm.trans h)).symm

/-- The loop over an appended list runs the first part and, on success,
continues with the second from the reached state. -/
theorem convertRows_append (fmt : CSVFormat) (cutoff today : Date)
    (xs ys : List (List String)) :
    ∀ st, convertRows fmt cutoff today (xs ++ ys) st =
      match convertRows fmt cutoff today xs st with
      | .error e => .error e
      | .ok st1 => convertRows fmt cutoff today ys st1 := by
  induction xs with
  | nil => intro st; rfl
  | cons r rs ih =>
    intro st
    simp only [List.cons_append, convertRows]
    cases hstep : convertStep fmt cutoff today st r with
    | error e => rfl
    | ok st1 => exact ih st1

/-- Counter bookkeeping along a successful run: each non-ignored row adds
one to exactly one of valid, empty, ncols_mismatch, and processed never
outgrows valid. -/
theorem convertRows_counts (fmt : CSVFormat) (cutoff today : Date)
    (rows : List (List String)) :
    ∀ st st', convertRows fmt cutoff today rows st = .ok st' →
      st'.valid + st'.empty + st'.ncols_mismatch =
        st.valid + st.empty + st.ncols_mismatch + countNonIgnored fmt rows ∧
      st'.processed + st.valid ≤ st.processed + st'.valid := by
  induction rows with
  | nil =>
    intro st st' h
    have he : st = st' := Except.ok.inj h
    subst he
    simp [countNonIgnored]
  | cons r rs ih =>
    intro st st' h
    simp only [convertRows] at h
    cases hstep : convertStep fmt cutoff today st r with
    | error e => rw [hstep] at h; exact Except.noConfusion h
    | ok st1 =>
      rw [hstep] at h
      obtain ⟨ih1, ih2⟩ := ih st1 st' h
      have hcnt : countNonIgnored fmt (r :: rs) =
          countNonIgnored fmt rs + (if ignoredRow fmt r then 0 else 1) := by
        simp only [countNonIgnored, List.countP_cons]
        cases hir : ignoredRow fmt r <;> simp
      rcases convertStep_ok_cases fmt cutoff today st st1 r hstep with
        ⟨hir, -, hst⟩ | ⟨hir, -, hsh⟩ | ⟨hir, rec, -, hst⟩
      · subst hst
        simp [hir] at hcnt
        constructor
        · omega
        · omega
      · simp [hir] at hcnt
        rcases hsh with hst | hst | hst <;>
          (subst hst; simp only [] at ih1 ih2; constructor <;> omega)
      · subst hst
        simp [hir] at hcnt
        simp only [] at ih1 ih2
        constructor
        · omega
        · omega

/-- QIF text accumulation along a successful run: the final text is the
initial text followed by the rendered records of the traversed rows. -/
theorem convertRows_qif (fmt : CSVFormat) (cutoff today : Date)
    (rows : List (List String)) :
    ∀ st st', convertRows fmt cutoff today rows st = .ok st' →
      st'.qif_text = st.qif_text ++
        concatAll ((rows.filterMap (rowRecord fmt cutoff today)).map
          renderRecord) := by
  induction rows with
  | nil =>
    intro st st' h
    have he : st = st' := Except.ok.inj h
    subst he
    simp [concatAll, String.append_empty]
  | cons r rs ih =>
    intro st st' h
    simp only [convertRows] at h
    cases hstep : convertStep fmt cutoff today st r with
    | error e => rw [hstep] at h; exact Except.noConfusion h
    | ok st1 =>
      rw [hstep] at h
      have ihq := ih st1 st' h
      rcases convertStep_ok_cases fmt cutoff today st st1 r hstep with
        ⟨-, hrec, hst⟩ | ⟨-, hrec, hsh⟩ | ⟨-, rec, hrec, hst⟩
      · subst hst
        rw [List.filterMap_cons_none hrec]
        exact ihq
      · rw [List.filterMap_cons_none hrec]
        rcases hsh with hst | hst | hst <;> (subst hst; simpa using ihq)
      · subst hst
        rw [List.filterMap_cons_some hrec]
        simp only [List.map_cons, concatAll]
        rw [← String.append_assoc]
        simpa using ihq

/-- Claim C2: a conversion run that completes without a fatal error
satisfies valid = processed + skipped, and valid + empty + ncols_mismatch
equals the number of rows not dropped by the ignore filter. -/
theorem convert_stats_law (fmt : CSVFormat) (rows : List (List String))
    (cutoff today : Date) (text : String) (stats : Stats)
    (h : convert_csv_to_qif fmt rows cutoff today = .ok (text, stats)) :
    stats.valid = stats.processed + stats.skipped ∧
    stats.valid + stats.empty + stats.ncols_mismatch =
      countNonIgnored fmt rows := by
  unfold convert_csv_to_qif at h
  cases hrun : convertRows fmt cutoff today rows initState with
  | error e => rw [hrun] at h; exact Except.noConfusion h
  | ok st =>
    rw [hrun] at h
    have hp := Except.ok.inj h
    injection hp with ht hs
    obtain ⟨h1, h2⟩ := convertRows_counts fmt cutoff today rows initState st
      hrun
    rw [← hs]
    simp only [initState] at h1 h2
    constructor
    · simp only []
      omega
    · simp only []
      omega

/-- Witness for C2: a run with one valid-but-skipped row, one empty row and
one column-count-mismatch row. -/
theorem convert_stats_law_witness :
    (⟨1, 0, 1, 0, 1, 1⟩ : Stats).valid =
      (⟨1, 0, 1, 0, 1, 1⟩ : Stats).processed +
        (⟨1, 0, 1, 0, 1, 1⟩ : Stats).skipped ∧
    (⟨1, 0, 1, 0, 1, 1⟩ : Stats).valid + (⟨1, 0, 1, 0, 1, 1⟩ : Stats).empty +
        (⟨1, 0, 1, 0, 1, 1⟩ : Stats).ncols_mismatch =
      countNonIgnored dFmt
        [["01-01-2024", "Coffee Shop", "3.50", ""], [], ["a", "b"]] :=
  convert_stats_law dFmt
    [["01-01-2024", "Coffee Shop", "3.50", ""], [], ["a", "b"]]
    ⟨2024, 2, 1⟩ ⟨2024, 2, 28⟩ "" ⟨1, 0, 1, 0, 1, 1⟩ (by decide)

/-- Claim C9: the QIF text of a completed run is exactly the concatenation,
in input row order, of one rendered block per accepted record; with no
accepted records the text is empty. -/
theorem convert_qif_serialization (fmt : CSVFormat)
    (rows : List (List String)) (cutoff today : Date) (text : String)
    (stats : Stats)
    (h : convert_csv_to_qif fmt rows cutoff today = .ok (text, stats)) :
    text = concatAll ((acceptedRecords fmt cutoff today rows).map
      renderRecord) := by
  unfold convert_csv_to_qif at h
  cases hrun : convertRows fmt cutoff today rows initState with
  | error e => rw [hrun] at h; exact Except.noConfusion h
  | ok st =>
    rw [hrun] at h
    have hp := Except.ok.inj h
    injection hp with ht hs
    have hq := convertRows_qif fmt cutoff today rows initState st hrun
    rw [← ht]
    simpa [initState, acceptedRecords, String.empty_append] using hq

/-- Witness for C9: a run with one accepted record yields exactly its block,
and a run with no accepted records yields the empty string. -/
theorem convert_qif_serialization_witness :
    "!Type:CCard\r\nD01-01-2024\r\nT-3.50\r\nPCoffee Shop\r\n^\r\n" =
      concatAll ((acceptedRecords dFmt ⟨2024, 1, 1⟩ ⟨2024, 1, 31⟩
        [["01-01-2024", "Coffee  Shop", "3.50", ""]]).map renderRecord) ∧
    "" = concatAll ((acceptedRecords dFmt ⟨2024, 1, 1⟩ ⟨2024, 1, 31⟩
        [[], ["a", "b"]]).map renderRecord) := by
  constructor
  · exact convert_qif_serialization dFmt
      [["01-01-2024", "Coffee  Shop", "3.50", ""]] ⟨2024, 1, 1⟩
      ⟨2024, 1, 31⟩ _ ⟨1, 1, 0, -(7 / 2), 0, 0⟩ (by decide)
  · exact convert_qif_serialization dFmt [[], ["a", "b"]] ⟨2024, 1, 1⟩
      ⟨2024, 1, 31⟩ _ ⟨0, 0, 0, 0, 1, 1⟩ (by decide)

/-- Claim C7: a row reaching amount resolution whose stripped debit field is
non-empty and unparsable makes the whole conversion run fail with the fatal
amount error carrying the hex-encoded offending characters, regardless of
any rows that follow, and no statistics are produced. -/
theorem convert_amount_error_fatal (fmt : CSVFormat)
    (rows1 rs : List (List String)) (row : List String)
    (cutoff today : Date) (st : ConvState) (dstr praw ds cs : String)
    (d : Date)
    (hpre : convertRows fmt cutoff today rows1 initState = .ok st)
    (hig : ignoreCheck fmt row = .ok false)
    (hlen : row.length = fmt.ncols)
    (hdc : row.get? fmt.date_col = some dstr)
    (hdate : str2date fmt dstr today = some d)
    (hwin : (Date.ltb d cutoff || Date.ltb today d) = false)
    (hpay : row.get? fmt.payee_col = some praw)
    (hdeb : row.get? fmt.debit_col = some ds)
    (hcred : row.get? fmt.credit_col = some cs)
    (hstrip : stripSpaces ds ≠ "")
    (hatof : atof (stripSpaces ds) = none) :
    convert_csv_to_qif fmt (rows1 ++ row :: rs) cutoff today =
      .error (.amountError (hexJoin (stripSpaces ds))) := by
  have hpa : parseAmount ds = none := by
    simp [parseAmount, hstrip, hatof]
  have hcd : credit_debit fmt row =
      .error (.amountError (hexJoin (stripSpaces ds))) := by
    simp only [credit_debit, hdeb, hcred, hpa]
  have hne : row.length ≠ 0 := length_ne_zero_of_get row fmt.date_col dstr hdc
  have hnn : ¬row.length ≠ fmt.ncols := by simp [hlen]
  have hstep : convertStep fmt cutoff today st row =
      .error (.amountError (hexJoin (stripSpaces ds))) := by
    simp only [convertStep, hig, rowBody, if_neg hne, if_neg hnn, hdc, hdate,
      hwin, hpay, hcd]
    simp
  unfold convert_csv_to_qif
  rw [convertRows_append fmt cutoff today rows1 (row :: rs) initState, hpre]
  simp only [convertRows, hstep]

/-- Witness for C7: the debit text `abc` aborts the run with the
hex-encoded payload `61:62:63`, with a well-formed row following it. -/
theorem convert_amount_error_fatal_witness :
    convert_csv_to_qif dFmt
        ([] ++ ["10-01-2024", "Shop", "abc", ""] ::
          [["10-01-2024", "Shop", "1.00", ""]]) ⟨2024, 1, 1⟩ ⟨2024, 1, 31⟩ =
      .error (.amountError "61:62:63") := by
  exact (convert_amount_error_fatal dFmt [] [["10-01-2024", "Shop", "1.00", ""]]
    ["10-01-2024", "Shop", "abc", ""] ⟨2024, 1, 1⟩ ⟨2024, 1, 31⟩ initState
    "10-01-2024" "Shop" "abc" "" ⟨2024, 1, 10⟩ (by decide) (by decide)
    (by decide) (by decide) (by decide) (by decide) (by decide) (by decide)
    (by decide) (by decide) (by decide)).trans (by decide)

/-- Claim C8 (evaluation at the failing input): with an ignore pattern
configured, an empty row makes the conversion fail with an uncaught index
error instead of being counted as empty, although the same empty row is
counted and tolerated when no ignore pattern is configured. -/
theorem convert_ignore_empty_row_index_error :
    convert_csv_to_qif iFmt [[]] ⟨2024, 1, 1⟩ ⟨2024, 1, 31⟩ =
      .error .indexError ∧
    convert_csv_to_qif dFmt [[]] ⟨2024, 1, 1⟩ ⟨2024, 1, 31⟩ =
      .ok ("", ⟨0, 0, 0, 0, 1, 0⟩) := by
  exact ⟨by decide, by decide⟩

end Mkqif
